import Mathlib

/-!
Verification of the session / keepalive layer of the mapeo protocol repository
(`sync-protocol.js`, class `SyncProtocol`, and the unnamed near-duplicate class
`UpgradeProtocol`).  Both classes share the same lifecycle machinery verbatim
(`createStream`, `onRpcClose`, `onTimeout`, `onHeartbeat`, `rpcHeartbeat`,
`close`, and the timer fields), so a single `Session` model below embeds the
lifecycle of both variants; the constructors, which differ (identity checks),
are embedded separately at the end of the definitions section.

Conventions of the embedding:
* JavaScript `null` fields become `Option`; `this.rpcStream` holds an opaque
  stream identifier (`Nat`), so JS truthiness of the stream is `Option.isSome`.
* A method body that would dereference `null` (a thrown `TypeError`) is
  embedded as `Except.error JsError.typeError`; a normal return is `.ok`.
* Time is an explicit `now : Nat` parameter threaded into the operations that
  create or refresh timers.
-/

namespace MapeoProtocol

/-- JavaScript errors that flow through the session layer: a `TypeError`
raised by dereferencing `null`, or an `Error` constructed with a message
(`new Error(msg)`). -/
inductive JsError where
  | typeError
  | mk (msg : String)
deriving DecidableEq, Repr

/-- Message carried by an error (`err.message`). -/
def JsError.message : JsError → String
  | .typeError => "TypeError"
  | .mk m => m

/-- Modelled from the spec: the Watchdog Timer contract (spec §4.1); the timer
library used by the source (`timer(ms, fn, ctx)` with `refresh`/`destroy`) is
an external dependency, not under `src/`.  A watchdog is a single-shot delay:
`delayMs` the configured delay, `deadline` the absolute time it would fire,
`called` true once it has fired or been destroyed (after which `refresh` is a
no-op and it never fires again). -/
structure Watchdog where
  delayMs : Nat
  deadline : Nat
  called : Bool
deriving DecidableEq, Repr

/-- Modelled from the spec: `timer(ms, fn, ctx)` arms a fresh watchdog firing
`ms` after `now`.  Which callback it drives (onTimeout / onHeartbeat) is fixed
by the session field holding it. -/
def timer (now ms : Nat) : Watchdog :=
  { delayMs := ms, deadline := now + ms, called := false }

/-- Modelled from the spec: `refresh()` resets the remaining delay to
`delayMs` from now; no-op if already fired or destroyed (spec §4.1). -/
def Watchdog.refresh (now : Nat) (w : Watchdog) : Watchdog :=
  if w.called then w else { w with deadline := now + w.delayMs }

/-- Modelled from the spec: `destroy()` cancels any pending firing;
idempotent (spec §4.1). -/
def Watchdog.destroy (w : Watchdog) : Watchdog :=
  { w with called := true }

/-- A watchdog that can still fire: armed and neither fired nor destroyed. -/
def Watchdog.live (w : Watchdog) : Bool := !w.called

/-- The mutable per-session state shared by `SyncProtocol` and
`UpgradeProtocol`: `this.timeoutMs`, `this.rpcStream`, `this.timeout`,
`this.heartbeat`.  The identity fields of the identifying variant play no
role in the lifecycle and live only in the constructor embedding. -/
structure Session where
  timeoutMs : Nat
  rpcStream : Option Nat
  timeout : Option Watchdog
  heartbeat : Option Watchdog
deriving DecidableEq, Repr

/-- State of a freshly constructed session (constructor tail: `this.rpcStream
= null; this.timeout = null; this.heartbeat = null`). -/
def initialSession (timeoutMs : Nat) : Session :=
  { timeoutMs := timeoutMs, rpcStream := none, timeout := none, heartbeat := none }

/-- Return value of `createStream`: the JS `false` sentinel when a stream
already exists, or the newly bound duplex stream handle. -/
inductive CreateResult where
  | alreadyStreaming
  | stream (id : Nat)
deriving DecidableEq, Repr

/-- Method `createStream (cb)` from the source: if `this.rpcStream` is set, return
`false`; otherwise bind a fresh stream (`sid` stands for the handle produced
by `this.rpc.createStream`), arm `this.timeout = timer(this.timeoutMs, …)`
and `this.heartbeat = timer(Math.floor(this.timeoutMs/2), …)`, and return the
stream. -/
def createStream (now sid : Nat) (s : Session) : Session × CreateResult :=
  match s.rpcStream with
  | some _ => (s, .alreadyStreaming)
  | none =>
      ({ s with
          rpcStream := some sid,
          timeout := some (timer now s.timeoutMs),
          heartbeat := some (timer now (s.timeoutMs / 2)) },
       .stream sid)

/-- Method `onRpcClose (err)` from the source, run when the transport reports the
stream closed: `this.timeout.destroy(); this.heartbeat.destroy()`, then null
out `rpcStream`, `timeout` and `heartbeat`.  Dereferencing a `null` timer
field raises a `TypeError`. -/
def onRpcClose (s : Session) : Except JsError Session :=
  match s.timeout with
  | none => .error .typeError
  | some t =>
      match s.heartbeat with
      | none => .error .typeError
      | some h =>
          let _ := t.destroy
          let _ := h.destroy
          .ok { s with rpcStream := none, timeout := none, heartbeat := none }

/-- Effect requested by `close`: either `this.rpc.close(err, cb.bind(null,
err))` — a transport close with `reason`, after which the user callback is
invoked with exactly `reason` (that is what `cb.bind(null, err)` pins) — or
`process.nextTick(cb)`, the user callback scheduled for the next tick with no
arguments. -/
inductive CloseEff where
  | rpcClose (reason : Option JsError)
  | deferredCb
deriving DecidableEq, Repr

/-- The error argument the `close` callback is eventually invoked with:
`cb.bind(null, err)` pins the requested reason; `process.nextTick(cb)` passes
nothing. -/
def CloseEff.cbError : CloseEff → Option JsError
  | .rpcClose reason => reason
  | .deferredCb => none

/-- Method `close (err, cb)` from the source: if `this.rpcStream` is set, destroy
both timers and request the transport close (`this.rpc.close(err,
cb.bind(null, err))`); otherwise schedule `cb` on the next tick.  The state
returned keeps `rpcStream` and the (destroyed) timer objects — only the later
`onRpcClose` nulls the fields. -/
def close (err : Option JsError) (s : Session) : Except JsError (Session × CloseEff) :=
  match s.rpcStream with
  | some _ =>
      match s.timeout with
      | none => .error .typeError
      | some t =>
          match s.heartbeat with
          | none => .error .typeError
          | some h =>
              .ok ({ s with timeout := some t.destroy, heartbeat := some h.destroy },
                   .rpcClose err)
  | none => .ok (s, .deferredCb)

/-- The distinguished error `new Error('remote timeout')` built in
`onTimeout`. -/
def remoteTimeoutError : JsError := .mk "remote timeout"

/-- Firing of the timeout watchdog: the timer library marks the watchdog as
having fired, then runs `onTimeout()`, whose whole body is
`this.close(new Error('remote timeout'))`. -/
def fireTimeout (s : Session) : Except JsError (Session × CloseEff) :=
  match s.timeout with
  | none => .error .typeError
  | some w =>
      close (some remoteTimeoutError)
        { s with timeout := some { w with called := true } }

/-- Firing of the heartbeat watchdog: the timer library marks the watchdog as
having fired, then runs `onHeartbeat()`: destroy the (just fired) heartbeat
watchdog, replace it with a fresh `timer(Math.floor(this.timeoutMs/2), …)`,
and only then issue the outbound `this.rpc.Heartbeat(…)` call.  The returned
`Bool` is `true` iff the outbound call was issued; its later completion is
`heartbeatResponse`. -/
def fireHeartbeat (now : Nat) (s : Session) : Except JsError (Session × Bool) :=
  match s.heartbeat with
  | none => .error .typeError
  | some w =>
      let _ := ({ w with called := true } : Watchdog).destroy
      .ok ({ s with heartbeat := some (timer now (s.timeoutMs / 2)) }, true)

/-- Completion of an outbound `Heartbeat` call, the callback `(err) => { if
(err) return; this.timeout.refresh(); this.heartbeat.refresh() }`.  `failed`
is JS truthiness of `err`. -/
def heartbeatResponse (now : Nat) (failed : Bool) (s : Session) : Except JsError Session :=
  if failed then .ok s
  else
    match s.timeout with
    | none => .error .typeError
    | some t =>
        match s.heartbeat with
        | none => .error .typeError
        | some h =>
            .ok { s with timeout := some (t.refresh now), heartbeat := some (h.refresh now) }

/-- The local `Heartbeat` RPC handler `rpcHeartbeat (cb)`:
`this.timeout.refresh(); this.heartbeat.refresh(); cb()`.  `.ok` means `cb()`
was invoked with no error; dereferencing a `null` timer field raises. -/
def rpcHeartbeat (now : Nat) (s : Session) : Except JsError Session :=
  match s.timeout with
  | none => .error .typeError
  | some t =>
      match s.heartbeat with
      | none => .error .typeError
      | some h =>
          .ok { s with timeout := some (t.refresh now), heartbeat := some (h.refresh now) }

/-- Modelled from the spec: the transport binding (muxrpc, an external
dependency not under `src/`) surfaces the close reason passed to
`rpc.close(reason, …)` to the stream close callback when the close was
locally requested (spec §4.2 and §6: `err` "propagated … to the peer/local
close callbacks"); for a spontaneous remote/transport close it surfaces the
transport's own error. -/
def transportCloseReport (pendingReason : Option (Option JsError))
    (transportErr : Option JsError) : Option JsError :=
  match pendingReason with
  | some r => r
  | none => transportErr

/-- One atomic event of the session's single-threaded event loop.  Timer
firings require the corresponding watchdog to be live; `heartbeatResponse` is
over-approximated as able to arrive at any time (it is only ever enabled
while a call is in flight, but extra transitions are sound for the safety
invariants proved below).  Events whose bodies would raise on `null` fields
raise before mutating anything, so only `.ok` outcomes change the state. -/
inductive Step : Session → Session → Prop where
  | create (now sid : Nat) (s : Session) :
      Step s (createStream now sid s).1
  | rpcClose (s s' : Session) (hs : s.rpcStream.isSome) (h : onRpcClose s = .ok s') :
      Step s s'
  | heartbeatRpc (now : Nat) (s s' : Session) (h : rpcHeartbeat now s = .ok s') :
      Step s s'
  | timeoutFires (s : Session) (w : Watchdog) (s' : Session) (eff : CloseEff)
      (hw : s.timeout = some w) (hl : w.called = false)
      (h : fireTimeout s = .ok (s', eff)) :
      Step s s'
  | heartbeatFires (now : Nat) (s : Session) (w : Watchdog) (s' : Session) (b : Bool)
      (hw : s.heartbeat = some w) (hl : w.called = false)
      (h : fireHeartbeat now s = .ok (s', b)) :
      Step s s'
  | response (now : Nat) (failed : Bool) (s s' : Session)
      (h : heartbeatResponse now failed s = .ok s') :
      Step s s'
  | closeCall (err : Option JsError) (s s' : Session) (eff : CloseEff)
      (h : close err s = .ok (s', eff)) :
      Step s s'

/-- States a session constructed with `timeoutMs = t` can reach. -/
def Reachable (t : Nat) (s : Session) : Prop :=
  Relation.ReflTransGen Step (initialSession t) s

/-- The watchdog-pairing invariant: the timer fields and the stream field are
set or null together. -/
def WatchdogInv (s : Session) : Prop :=
  s.timeout.isSome = s.rpcStream.isSome ∧ s.heartbeat.isSome = s.rpcStream.isSome

/-- A JavaScript option value as it matters for truthiness tests in the two
constructors: `undefined` (an absent property), `null`, a number, or a
string. -/
inductive JsVal where
  | undef
  | jsNull
  | num (n : Int)
  | str (s : String)
deriving DecidableEq, Repr

/-- JS truthiness: `undefined`, `null`, `0` and `""` are falsy. -/
def JsVal.truthy : JsVal → Bool
  | .undef => false
  | .jsNull => false
  | .num n => n != 0
  | .str v => v != ""

/-- The expression `a || d`: `a` if truthy, else `d`. -/
def jsOr (a d : JsVal) : JsVal := if a.truthy then a else d

/-- The `opts` object handed to either constructor (`opts = opts || {}` makes
every field read default to `undefined`). -/
structure Opts where
  timeout : JsVal
  deviceName : JsVal
  deviceType : JsVal
deriving DecidableEq, Repr

/-- Fields the `SyncProtocol` constructor commits to the instance. -/
structure SyncCtorResult where
  timeoutMs : JsVal
  deviceName : JsVal
  deviceType : JsVal
deriving DecidableEq, Repr

/-- The `SyncProtocol` constructor: `this.timeoutMs = opts.timeout || 20000`,
then `if (!opts.deviceName) throw …; if (!opts.deviceType) throw …`.  No
check of any kind is applied to `opts.timeout`. -/
def syncProtocolCtor (opts : Opts) : Except JsError SyncCtorResult :=
  let timeoutMs := jsOr opts.timeout (.num 20000)
  if !opts.deviceName.truthy then .error (.mk "must specify opts.deviceName")
  else if !opts.deviceType.truthy then .error (.mk "must specify opts.deviceType")
  else .ok { timeoutMs := timeoutMs, deviceName := opts.deviceName, deviceType := opts.deviceType }

/-- Fields the `UpgradeProtocol` constructor commits to the instance. -/
structure UpgradeCtorResult where
  timeoutMs : JsVal
deriving DecidableEq, Repr

/-- The `UpgradeProtocol` constructor: `this.timeoutMs = opts.timeout ||
20000` and nothing else that can fail — the function is total. -/
def upgradeProtocolCtor (opts : Opts) : UpgradeCtorResult :=
  { timeoutMs := jsOr opts.timeout (.num 20000) }

theorem step_preserves_inv (s s' : Session) (h : Step s s') (hi : WatchdogInv s) :
    WatchdogInv s' := by
  obtain ⟨h1, h2⟩ := hi
  cases h with
  | create now sid s =>
      cases hs : s.rpcStream with
      | some id => simp [createStream, hs, WatchdogInv, h1, h2, hs ▸ h1, hs ▸ h2]
      | none => simp [createStream, hs, WatchdogInv]
  | rpcClose s s' hs h =>
      cases ht : s.timeout with
      | none => simp [onRpcClose, ht] at h
      | some t =>
        cases hh : s.heartbeat with
        | none => simp [onRpcClose, ht, hh] at h
        | some hb =>
          simp only [onRpcClose, ht, hh, Except.ok.injEq] at h
          subst h
          simp [WatchdogInv]
  | heartbeatRpc now s s' h =>
      cases ht : s.timeout with
      | none => simp [rpcHeartbeat, ht] at h
      | some t =>
        cases hh : s.heartbeat with
        | none => simp [rpcHeartbeat, ht, hh] at h
        | some hb =>
          simp only [rpcHeartbeat, ht, hh, Except.ok.injEq] at h
          subst h
          rw [ht] at h1
          simp [WatchdogInv, ← h1]
  | timeoutFires s w s' eff hw hl h =>
      rw [hw] at h1
      simp only [Option.isSome_some] at h1
      cases hs : s.rpcStream with
      | none => rw [hs] at h1; simp at h1
      | some sid =>
        cases hh : s.heartbeat with
        | none => rw [hh, hs] at h2; simp at h2
        | some hb =>
          simp only [fireTimeout, hw, close, hs, hh, Except.ok.injEq, Prod.mk.injEq] at h
          obtain ⟨h, _⟩ := h
          subst h
          simp [WatchdogInv, hs]
  | heartbeatFires now s w s' b hw hl h =>
      rw [hw] at h2
      simp only [Option.isSome_some] at h2
      simp only [fireHeartbeat, hw, Except.ok.injEq, Prod.mk.injEq] at h
      obtain ⟨h, _⟩ := h
      subst h
      simp [WatchdogInv, h1, ← h2]
  | response now failed s s' h =>
      cases failed with
      | true =>
        simp only [heartbeatResponse, if_pos, Except.ok.injEq] at h
        subst h
        exact ⟨h1, h2⟩
      | false =>
        cases ht : s.timeout with
        | none => simp [heartbeatResponse, ht] at h
        | some t =>
          cases hh : s.heartbeat with
          | none => simp [heartbeatResponse, ht, hh] at h
          | some hb =>
            simp only [heartbeatResponse, ht, hh, Bool.false_eq_true, if_false,
              Except.ok.injEq] at h
            subst h
            rw [ht] at h1
            simp [WatchdogInv, ← h1]
  | closeCall err s s' eff h =>
      cases hs : s.rpcStream with
      | none =>
        simp only [close, hs, Except.ok.injEq, Prod.mk.injEq] at h
        obtain ⟨h, _⟩ := h
        subst h
        exact ⟨h1, h2⟩
      | some sid =>
        cases ht : s.timeout with
        | none => simp [close, hs, ht] at h
        | some t =>
          cases hh : s.heartbeat with
          | none => simp [close, hs, ht, hh] at h
          | some hb =>
            simp only [close, hs, ht, hh, Except.ok.injEq, Prod.mk.injEq] at h
            obtain ⟨h, _⟩ := h
            subst h
            simp [WatchdogInv, hs]

theorem reachable_inv (t : Nat) (s : Session) (h : Reachable t s) : WatchdogInv s := by
  induction h with
  | refl => exact ⟨rfl, rfl⟩
  | tail _ hstep ih => exact step_preserves_inv _ _ hstep ih

/-- C1: at every reachable state of a session (the lifecycle machinery is
shared verbatim by the identifying `SyncProtocol` and the minimal
`UpgradeProtocol`), the timeout and heartbeat watchdog fields are set if and
only if the session holds a bound Stream Handle (the stream-bound side of the
lifecycle): `createStream` creates both together, every closure path destroys
both together, and at no reachable state does exactly one of the two
watchdogs exist. -/
theorem C1_watchdogs_paired (t : Nat) (s : Session) (h : Reachable t s) :
    s.timeout.isSome = s.rpcStream.isSome ∧
    s.heartbeat.isSome = s.rpcStream.isSome ∧
    s.timeout.isSome = s.heartbeat.isSome := by
  obtain ⟨h1, h2⟩ := reachable_inv t s h
  exact ⟨h1, h2, h1.trans h2.symm⟩

theorem C1_witness :
    ((createStream 0 1 (initialSession 20000)).1.timeout.isSome =
        (createStream 0 1 (initialSession 20000)).1.rpcStream.isSome) ∧
    ((createStream 0 1 (initialSession 20000)).1.heartbeat.isSome =
        (createStream 0 1 (initialSession 20000)).1.rpcStream.isSome) ∧
    ((createStream 0 1 (initialSession 20000)).1.timeout.isSome =
        (createStream 0 1 (initialSession 20000)).1.heartbeat.isSome) :=
  C1_watchdogs_paired 20000 _
    (Relation.ReflTransGen.single (Step.create 0 1 (initialSession 20000)))

/-- C2: on a session that already holds a Stream Handle, a second
`createStream` (no intervening close) returns the `false` sentinel instead of
throwing, and leaves the session — in particular the Stream Handle returned
by the first call — unchanged. -/
theorem C2_second_createStream_fails (now now2 sid sid2 : Nat) (s : Session)
    (hs : s.rpcStream = none) :
    (createStream now sid s).2 = .stream sid ∧
    (createStream now sid s).1.rpcStream = some sid ∧
    createStream now2 sid2 (createStream now sid s).1 =
      ((createStream now sid s).1, .alreadyStreaming) := by
  simp [createStream, hs]

theorem C2_witness :
    (createStream 0 7 (initialSession 20000)).2 = .stream 7 ∧
    (createStream 0 7 (initialSession 20000)).1.rpcStream = some 7 ∧
    createStream 5 9 (createStream 0 7 (initialSession 20000)).1 =
      ((createStream 0 7 (initialSession 20000)).1, .alreadyStreaming) :=
  C2_second_createStream_fails 0 5 7 9 (initialSession 20000) rfl

/-- C3: on an Active session, a firing of the timeout watchdog does nothing
but invoke `close` with the distinguished error of message "remote timeout":
the resulting state is exactly the close-path state (both watchdogs
destroyed), the only effect is the transport close carrying that error, and
the stream close callback registered by `createStream` is surfaced that same
error when the transport close completes. -/
theorem C3_timeout_fires_closes (s : Session) (sid : Nat) (tw hw : Watchdog)
    (hs : s.rpcStream = some sid) (ht : s.timeout = some tw) (hh : s.heartbeat = some hw) :
    fireTimeout s =
      .ok ({ s with timeout := some { tw with called := true },
                    heartbeat := some hw.destroy },
           .rpcClose (some remoteTimeoutError)) ∧
    remoteTimeoutError.message = "remote timeout" ∧
    (∀ e, transportCloseReport (some (some remoteTimeoutError)) e = some remoteTimeoutError) := by
  refine ⟨?_, rfl, fun e => rfl⟩
  simp [fireTimeout, ht, close, hs, hh, Watchdog.destroy]

theorem C3_witness :
    fireTimeout (createStream 0 1 (initialSession 200)).1 =
      .ok ({ (createStream 0 1 (initialSession 200)).1 with
                timeout := some { timer 0 200 with called := true },
                heartbeat := some (timer 0 100).destroy },
           .rpcClose (some remoteTimeoutError)) ∧
    remoteTimeoutError.message = "remote timeout" ∧
    (∀ e, transportCloseReport (some (some remoteTimeoutError)) e = some remoteTimeoutError) :=
  C3_timeout_fires_closes (createStream 0 1 (initialSession 200)).1 1
    (timer 0 200) (timer 0 100) rfl rfl rfl

/-- C4 (counterexample): the claim that the local Heartbeat RPC handler
succeeds in every lifecycle state is false — invoked on a freshly constructed
session (not Active, watchdog fields null), `rpcHeartbeat` dereferences
`this.timeout` (null) and raises a TypeError instead of calling back. -/
theorem C4_counterexample :
    rpcHeartbeat 0 (initialSession 20000) = .error .typeError := rfl

/-- C4 (amended): whenever both watchdog fields are set (every stream-bound
state, Active or closing — in the latter the refreshes are no-ops on the
destroyed watchdogs), the local Heartbeat RPC handler refreshes both the
timeout and the heartbeat watchdog and then calls back successfully, raising
nothing; when a watchdog field is null (Unconnected or fully closed) it
raises a TypeError instead. -/
theorem C4_heartbeat_handler_refreshes (now : Nat) (s : Session) (tw hw : Watchdog)
    (ht : s.timeout = some tw) (hh : s.heartbeat = some hw) :
    rpcHeartbeat now s =
      .ok { s with timeout := some (tw.refresh now), heartbeat := some (hw.refresh now) } := by
  simp [rpcHeartbeat, ht, hh]

theorem C4_witness :
    rpcHeartbeat 3 (createStream 0 1 (initialSession 200)).1 =
      .ok { (createStream 0 1 (initialSession 200)).1 with
              timeout := some ((timer 0 200).refresh 3),
              heartbeat := some ((timer 0 100).refresh 3) } :=
  C4_heartbeat_handler_refreshes 3 (createStream 0 1 (initialSession 200)).1
    (timer 0 200) (timer 0 100) rfl rfl

/-- C5: a firing of the heartbeat watchdog of a session replaces the current
heartbeat watchdog by a fresh, not-yet-fired one for the same interval
`floor(timeoutMs/2)` and leaves the timeout watchdog untouched, before the
outbound Heartbeat call is issued (the `true` flag); a successful response
then refreshes both watchdogs, and a failed response performs no action at
all (in particular the timeout watchdog is not refreshed). -/
theorem C5_heartbeat_cycle (now now2 : Nat) (s : Session) (hw : Watchdog)
    (hh : s.heartbeat = some hw) :
    fireHeartbeat now s =
      .ok ({ s with heartbeat := some (timer now (s.timeoutMs / 2)) }, true) ∧
    (timer now (s.timeoutMs / 2)).delayMs = s.timeoutMs / 2 ∧
    (timer now (s.timeoutMs / 2)).called = false ∧
    ({ s with heartbeat := some (timer now (s.timeoutMs / 2)) } : Session).timeout
      = s.timeout ∧
    (∀ s2 : Session, heartbeatResponse now2 true s2 = .ok s2) ∧
    (∀ (s2 : Session) (tw2 hw2 : Watchdog), s2.timeout = some tw2 → s2.heartbeat = some hw2 →
      heartbeatResponse now2 false s2 =
        .ok { s2 with timeout := some (tw2.refresh now2),
                      heartbeat := some (hw2.refresh now2) }) := by
  refine ⟨by simp [fireHeartbeat, hh], rfl, rfl, rfl,
    fun s2 => by simp [heartbeatResponse],
    fun s2 tw2 hw2 ht2 hh2 => by simp [heartbeatResponse, ht2, hh2]⟩

theorem C5_witness :
    fireHeartbeat 100 (createStream 0 1 (initialSession 200)).1 =
      .ok ({ (createStream 0 1 (initialSession 200)).1 with
                heartbeat := some (timer 100 ((createStream 0 1 (initialSession 200)).1.timeoutMs / 2)) },
           true) ∧
    (timer 100 ((createStream 0 1 (initialSession 200)).1.timeoutMs / 2)).delayMs =
      (createStream 0 1 (initialSession 200)).1.timeoutMs / 2 ∧
    (timer 100 ((createStream 0 1 (initialSession 200)).1.timeoutMs / 2)).called = false ∧
    ({ (createStream 0 1 (initialSession 200)).1 with
        heartbeat := some (timer 100 ((createStream 0 1 (initialSession 200)).1.timeoutMs / 2)) }
        : Session).timeout = (createStream 0 1 (initialSession 200)).1.timeout ∧
    (∀ s2 : Session, heartbeatResponse 130 true s2 = .ok s2) ∧
    (∀ (s2 : Session) (tw2 hw2 : Watchdog), s2.timeout = some tw2 → s2.heartbeat = some hw2 →
      heartbeatResponse 130 false s2 =
        .ok { s2 with timeout := some (tw2.refresh 130),
                      heartbeat := some (hw2.refresh 130) }) :=
  C5_heartbeat_cycle 100 130 (createStream 0 1 (initialSession 200)).1 (timer 0 100) rfl

/-- C6: on any reachable session state, `close` never raises; and when no
Stream Handle is bound, `close(err, cb)` leaves the state unchanged and
schedules `cb` once on the next tick (`process.nextTick(cb)`, the
`deferredCb` effect) so that it is invoked asynchronously with no error
argument, whatever `err` was passed in. -/
theorem C6_close_without_stream (t : Nat) (s : Session) (err : Option JsError)
    (h : Reachable t s) :
    (∃ out, close err s = .ok out) ∧
    (s.rpcStream = none →
      close err s = .ok (s, .deferredCb) ∧ CloseEff.cbError .deferredCb = none) := by
  obtain ⟨h1, h2⟩ := reachable_inv t s h
  constructor
  · cases hs : s.rpcStream with
    | none => exact ⟨(s, .deferredCb), by simp [close, hs]⟩
    | some sid =>
      rw [hs] at h1 h2
      simp only [Option.isSome_some] at h1 h2
      obtain ⟨tw, ht⟩ := Option.isSome_iff_exists.mp h1
      obtain ⟨hw, hhb⟩ := Option.isSome_iff_exists.mp h2
      exact ⟨({ s with timeout := some tw.destroy, heartbeat := some hw.destroy },
                .rpcClose err), by simp [close, hs, ht, hhb]⟩
  · intro hs
    exact ⟨by simp [close, hs], rfl⟩

theorem C6_witness :
    (∃ out, close (some remoteTimeoutError) (initialSession 20000) = .ok out) ∧
    ((initialSession 20000).rpcStream = none →
      close (some remoteTimeoutError) (initialSession 20000) =
        .ok (initialSession 20000, .deferredCb) ∧
      CloseEff.cbError .deferredCb = none) :=
  C6_close_without_stream 20000 (initialSession 20000) (some remoteTimeoutError)
    Relation.ReflTransGen.refl

/-- C7: on an Active session, `close(err, cb)` destroys both watchdogs in the
very step that requests the transport close (no callback can run in between),
passes `err` through as the transport close reason, and pins `err` as the one
argument `cb` is invoked with once the transport close completes
(`cb.bind(null, err)`). -/
theorem C7_close_active (s : Session) (sid : Nat) (tw hw : Watchdog) (err : Option JsError)
    (hs : s.rpcStream = some sid) (ht : s.timeout = some tw) (hh : s.heartbeat = some hw) :
    close err s =
      .ok ({ s with timeout := some tw.destroy, heartbeat := some hw.destroy },
           .rpcClose err) ∧
    tw.destroy.called = true ∧ hw.destroy.called = true ∧
    CloseEff.cbError (.rpcClose err) = err := by
  exact ⟨by simp [close, hs, ht, hh], rfl, rfl, rfl⟩

theorem C7_witness :
    close (some (.mk "bye")) (createStream 0 1 (initialSession 200)).1 =
      .ok ({ (createStream 0 1 (initialSession 200)).1 with
                timeout := some (timer 0 200).destroy,
                heartbeat := some (timer 0 100).destroy },
           .rpcClose (some (.mk "bye"))) ∧
    (timer 0 200).destroy.called = true ∧ (timer 0 100).destroy.called = true ∧
    CloseEff.cbError (.rpcClose (some (.mk "bye"))) = some (.mk "bye") :=
  C7_close_active (createStream 0 1 (initialSession 200)).1 1 (timer 0 200) (timer 0 100)
    (some (.mk "bye")) rfl rfl rfl

/-- C8 (counterexample): the claim that a heartbeat response arriving after
teardown is always a no-op is false for a success response arriving after the
transport close has run `onRpcClose`: on the run createStream → heartbeat
watchdog fires (outbound call in flight) → transport close (watchdog fields
nulled) → success response, the callback dereferences `this.timeout` (null)
and raises a TypeError. -/
theorem C8_counterexample :
    ((fireHeartbeat 10 (createStream 0 1 (initialSession 200)).1).bind fun p =>
      (onRpcClose p.1).bind fun s3 => heartbeatResponse 20 false s3) =
      Except.error JsError.typeError := rfl

/-- C8 (amended): a failed heartbeat response is a no-op in every state; a
success response arriving after `close` has destroyed the watchdogs but
before the transport close has cleared the fields is also a no-op (refresh on
a destroyed watchdog does nothing); only a success response arriving after
`onRpcClose` has nulled the fields raises a TypeError instead of being a
no-op. -/
theorem C8_late_response_noop (now : Nat) (s : Session) (tw hw : Watchdog)
    (ht : s.timeout = some tw) (hh : s.heartbeat = some hw)
    (hc : tw.called = true) (hc2 : hw.called = true) :
    heartbeatResponse now true s = .ok s ∧ heartbeatResponse now false s = .ok s := by
  obtain ⟨a, b, c, d⟩ := s
  simp only [Session.timeout] at ht
  simp only [Session.heartbeat] at hh
  subst ht
  subst hh
  refine ⟨by simp [heartbeatResponse], ?_⟩
  simp [heartbeatResponse, Watchdog.refresh, hc, hc2]

theorem C8_witness :
    heartbeatResponse 50
        true (Session.mk 200 (some 1) (some (timer 0 200).destroy) (some (timer 0 100).destroy)) =
      .ok (Session.mk 200 (some 1) (some (timer 0 200).destroy) (some (timer 0 100).destroy)) ∧
    heartbeatResponse 50
        false (Session.mk 200 (some 1) (some (timer 0 200).destroy) (some (timer 0 100).destroy)) =
      .ok (Session.mk 200 (some 1) (some (timer 0 200).destroy) (some (timer 0 100).destroy)) :=
  C8_late_response_noop 50 _ (timer 0 200).destroy (timer 0 100).destroy rfl rfl rfl rfl

/-- C9: on a session with no bound Stream Handle, `createStream` binds the
transport and returns the new, truthy Stream Handle (not the `false`
sentinel), arming the timeout watchdog with delay exactly `timeoutMs` and the
heartbeat watchdog with delay exactly `floor(timeoutMs/2)`. -/
theorem C9_createStream_arms (now sid : Nat) (s : Session) (hs : s.rpcStream = none) :
    createStream now sid s =
      ({ s with rpcStream := some sid,
                timeout := some (timer now s.timeoutMs),
                heartbeat := some (timer now (s.timeoutMs / 2)) },
       .stream sid) ∧
    (timer now s.timeoutMs).delayMs = s.timeoutMs ∧
    (timer now (s.timeoutMs / 2)).delayMs = s.timeoutMs / 2 ∧
    (timer now s.timeoutMs).called = false ∧
    (timer now (s.timeoutMs / 2)).called = false := by
  exact ⟨by simp [createStream, hs], rfl, rfl, rfl, rfl⟩

theorem C9_witness :
    createStream 0 4 (initialSession 20001) =
      ({ initialSession 20001 with
          rpcStream := some 4,
          timeout := some (timer 0 (initialSession 20001).timeoutMs),
          heartbeat := some (timer 0 ((initialSession 20001).timeoutMs / 2)) },
       .stream 4) ∧
    (timer 0 (initialSession 20001).timeoutMs).delayMs = (initialSession 20001).timeoutMs ∧
    (timer 0 ((initialSession 20001).timeoutMs / 2)).delayMs =
      (initialSession 20001).timeoutMs / 2 ∧
    (timer 0 (initialSession 20001).timeoutMs).called = false ∧
    (timer 0 ((initialSession 20001).timeoutMs / 2)).called = false :=
  C9_createStream_arms 0 4 (initialSession 20001) rfl

/-- C10: both constructors compute `this.timeoutMs = opts.timeout || 20000`,
so any falsy `opts.timeout` (absent, `null`, `0`, `""`) is silently replaced
by the default 20000; no validation is applied to the supplied timeout — any
number, including a negative one, is kept verbatim, and construction never
fails because of the timeout (the identifying variant fails only on missing
identity fields, the minimal variant is total). -/
theorem C10_timeout_defaulting (v dn dt : JsVal)
    (hv : v.truthy = false) (hdn : dn.truthy = true) (hdt : dt.truthy = true) :
    syncProtocolCtor ⟨v, dn, dt⟩ =
      .ok { timeoutMs := .num 20000, deviceName := dn, deviceType := dt } ∧
    upgradeProtocolCtor ⟨v, dn, dt⟩ = { timeoutMs := .num 20000 } ∧
    (∀ w : JsVal, ∃ r, syncProtocolCtor ⟨w, dn, dt⟩ = .ok r) ∧
    (∀ n : Int, n ≠ 0 →
      (upgradeProtocolCtor ⟨.num n, dn, dt⟩).timeoutMs = .num n) := by
  refine ⟨by simp [syncProtocolCtor, jsOr, hv, hdn, hdt],
    by simp [upgradeProtocolCtor, jsOr, hv],
    fun w => ⟨{ timeoutMs := jsOr w (.num 20000), deviceName := dn, deviceType := dt },
      by simp [syncProtocolCtor, hdn, hdt]⟩,
    fun n hn => by simp [upgradeProtocolCtor, jsOr, JsVal.truthy, hn]⟩

theorem C10_witness :
    syncProtocolCtor ⟨.undef, .str "a", .str "mobile"⟩ =
      .ok { timeoutMs := .num 20000, deviceName := .str "a", deviceType := .str "mobile" } ∧
    upgradeProtocolCtor ⟨.undef, .str "a", .str "mobile"⟩ = { timeoutMs := .num 20000 } ∧
    (∀ w : JsVal, ∃ r, syncProtocolCtor ⟨w, .str "a", .str "mobile"⟩ = .ok r) ∧
    (∀ n : Int, n ≠ 0 →
      (upgradeProtocolCtor ⟨.num n, .str "a", .str "mobile"⟩).timeoutMs = .num n) :=
  C10_timeout_defaulting (.undef) (.str "a") (.str "mobile") rfl (by decide) (by decide)

end MapeoProtocol
